import Mathlib

/-!
Verification of the `meshify` CSV mesh-code tool (`src/main.rs`).

The tool reads a CSV, resolves the configured latitude/longitude columns,
optionally converts each coordinate from the Tokyo datum (EPSG:4301) to
WGS84 (EPSG:4326) through the external `proj` capability, computes a
hierarchical regional mesh code with `get_mesh_code`, appends it as a new
field and writes the row out.  Rows whose latitude or longitude does not
parse are skipped with a warning on stderr.

Embedding conventions:
* `f64` values are modelled by `ℚ` (exact arithmetic).  The encoder only
  multiplies, divides, floors and takes `%`-remainders of its inputs, so the
  rational model reproduces the real-arithmetic formulas of the program.
* Rust's `%` on floats (remainder with truncated quotient) is `rustRem`,
  `f64::floor` is `f64floor`, and the saturating `as u32` cast is `asU32`.
* The streaming loop of `main` becomes `runRows`: the rows written to the
  output file and the warnings printed to stderr are accumulated in lists,
  and the `?` early exits become an `Except`-valued status.  The external
  `proj` converter and `str::parse::<f64>` are parameters: the program only
  observes them through success/failure and the returned values.
* The csv reader's `record.position().line()` is the 1-based source line of
  a record; with a header on line 1 and one record per line the first data
  record is on line 2, so `main` corresponds to `runRows … 2 rows`.
-/

namespace Meshify

/-- Truncation of a rational toward zero, the rounding used by Rust both for
the float remainder operator and for float-to-integer casts. -/
def ratTrunc (X : ℚ) : ℤ := if 0 ≤ X then ⌊X⌋ else ⌈X⌉

/-- Rust's `%` operator on `f64`: `a % b = a - b * trunc (a / b)`, a
remainder carrying the sign of `a`. -/
def rustRem (a b : ℚ) : ℚ := a - b * (ratTrunc (a / b) : ℚ)

/-- Rust's `f64::floor`, which returns a float again. -/
def f64floor (X : ℚ) : ℚ := (⌊X⌋ : ℚ)

/-- Rust's `as u32` cast on `f64`: truncate toward zero, then saturate into
`[0, 2^32 - 1]` (negative values collapse to `0`). -/
def asU32 (X : ℚ) : ℕ := if X < 0 then 0 else min ⌊X⌋.toNat (2 ^ 32 - 1)

/-- `enum MeshLevel` of `main.rs`. -/
inductive MeshLevel
  | Standard
  | Half
  | Quarter
  | Eighth

/-- `enum Datum` of `main.rs` (`WGS` = world geodetic system, the global
datum; `JGS` = Japanese/Tokyo datum, the legacy datum). -/
inductive Datum
  | WGS
  | JGS

/-- `let lat_min = lat * 60.0;` (main.rs line 130). -/
def lat_min (lat : ℚ) : ℚ := lat * 60

/-- `let (p, a_rem) = ((lat_min / 40.0).floor(), lat_min % 40.0);` line 131. -/
def p (lat : ℚ) : ℚ := f64floor (lat_min lat / 40)

/-- Remainder of the 40-minute primary latitude band, line 131. -/
def a_rem (lat : ℚ) : ℚ := rustRem (lat_min lat) 40

/-- `let (q, b_rem) = ((a_rem / 5.0).floor(), a_rem % 5.0);` line 133. -/
def q (lat : ℚ) : ℚ := f64floor (a_rem lat / 5)

/-- Remainder of the 5-minute secondary latitude band, line 133. -/
def b_rem (lat : ℚ) : ℚ := rustRem (a_rem lat) 5

/-- `let lat_sec_in_b = b_rem * 60.0;` line 135. -/
def lat_sec_in_b (lat : ℚ) : ℚ := b_rem lat * 60

/-- `let (r, c_rem) = ((lat_sec_in_b / 30.0).floor(), lat_sec_in_b % 30.0);`
line 136. -/
def r (lat : ℚ) : ℚ := f64floor (lat_sec_in_b lat / 30)

/-- Remainder of the 30-second tertiary latitude band, line 136. -/
def c_rem (lat : ℚ) : ℚ := rustRem (lat_sec_in_b lat) 30

/-- `let lon_deg_rem = lon - lon.floor();` line 138. -/
def lon_deg_rem (lon : ℚ) : ℚ := lon - f64floor lon

/-- `let u = lon.floor() - 100.0;` line 139. -/
def u (lon : ℚ) : ℚ := f64floor lon - 100

/-- `let lon_min_rem = lon_deg_rem * 60.0;` line 141. -/
def lon_min_rem (lon : ℚ) : ℚ := lon_deg_rem lon * 60

/-- `let (v, g_rem) = ((lon_min_rem / 7.5).floor(), lon_min_rem % 7.5);`
line 142. -/
def v (lon : ℚ) : ℚ := f64floor (lon_min_rem lon / 7.5)

/-- Remainder of the 7.5-minute secondary longitude band, line 142. -/
def g_rem (lon : ℚ) : ℚ := rustRem (lon_min_rem lon) 7.5

/-- `let lon_sec_in_g = g_rem * 60.0;` line 144. -/
def lon_sec_in_g (lon : ℚ) : ℚ := g_rem lon * 60

/-- `let (w, h_rem) = ((lon_sec_in_g / 45.0).floor(), lon_sec_in_g % 45.0);`
line 145. -/
def w (lon : ℚ) : ℚ := f64floor (lon_sec_in_g lon / 45)

/-- Remainder of the 45-second tertiary longitude band, line 145. -/
def h_rem (lon : ℚ) : ℚ := rustRem (lon_sec_in_g lon) 45

/-- `let (s, d_rem) = ((c_rem / 15.0).floor(), c_rem % 15.0);` line 159. -/
def s (lat : ℚ) : ℚ := f64floor (c_rem lat / 15)

/-- Latitude remainder carried into the quarter stage, line 159. -/
def d_rem (lat : ℚ) : ℚ := rustRem (c_rem lat) 15

/-- `let (x, i_rem) = ((h_rem / 22.5).floor(), h_rem % 22.5);` line 160. -/
def x (lon : ℚ) : ℚ := f64floor (h_rem lon / 22.5)

/-- Longitude remainder carried into the quarter stage, line 160. -/
def i_rem (lon : ℚ) : ℚ := rustRem (h_rem lon) 22.5

/-- `let m = (s * 2.0) + x + 1.0;` line 161 — the half-mesh quadrant value. -/
def m (lat lon : ℚ) : ℚ := s lat * 2 + x lon + 1

/-- `let (t, e_rem) = ((d_rem / 7.5).floor(), d_rem % 7.5);` line 169. -/
def t (lat : ℚ) : ℚ := f64floor (d_rem lat / 7.5)

/-- Latitude remainder carried into the eighth stage, line 169. -/
def e_rem (lat : ℚ) : ℚ := rustRem (d_rem lat) 7.5

/-- `let (y, j_rem) = ((i_rem / 11.25).floor(), i_rem % 11.25);` line 170. -/
def y (lon : ℚ) : ℚ := f64floor (i_rem lon / 11.25)

/-- Longitude remainder carried into the eighth stage, line 170. -/
def j_rem (lon : ℚ) : ℚ := rustRem (i_rem lon) 11.25

/-- `let n = (t * 2.0) + y + 1.0;` line 171 — the quarter-mesh quadrant value. -/
def n (lat lon : ℚ) : ℚ := t lat * 2 + y lon + 1

/-- `let (t2, _) = ((e_rem / 3.75).floor(), e_rem % 3.75);` line 179. -/
def t2 (lat : ℚ) : ℚ := f64floor (e_rem lat / 3.75)

/-- `let (y2, _) = ((j_rem / 5.625).floor(), j_rem % 5.625);` line 180. -/
def y2 (lon : ℚ) : ℚ := f64floor (j_rem lon / 5.625)

/-- `let o = (t2 * 2.0) + y2 + 1.0;` line 181 — the eighth-mesh quadrant value. -/
def o (lat lon : ℚ) : ℚ := t2 lat * 2 + y2 lon + 1

/-- The 6-group base (Standard) code of main.rs lines 148-151:
`format!("{}{}{}{}{}{}", p as u32, u as u32, q as u32, v as u32, r as u32, w as u32)`. -/
def base_code (lat lon : ℚ) : String :=
  toString (asU32 (p lat)) ++ toString (asU32 (u lon)) ++ toString (asU32 (q lat))
    ++ toString (asU32 (v lon)) ++ toString (asU32 (r lat)) ++ toString (asU32 (w lon))

/-- `fn get_mesh_code(lat, lon, level) -> String` (main.rs lines 128-186).
The Rust function builds the base code and then, for each level past
`Standard`, pushes one more `(… as u32).to_string()` digit; the early
returns are rendered as one match on the requested level. -/
def get_mesh_code (lat lon : ℚ) : MeshLevel → String
  | MeshLevel.Standard => base_code lat lon
  | MeshLevel.Half => base_code lat lon ++ toString (asU32 (m lat lon))
  | MeshLevel.Quarter =>
      base_code lat lon ++ toString (asU32 (m lat lon)) ++ toString (asU32 (n lat lon))
  | MeshLevel.Eighth =>
      base_code lat lon ++ toString (asU32 (m lat lon)) ++ toString (asU32 (n lat lon))
        ++ toString (asU32 (o lat lon))

/-- Warning printed (main.rs line 94) when the latitude field of a row does
not parse: `[警告] {line}行目: 緯度の値「{raw}」が不正なため、この行をスキップします。`. -/
def latWarning (line_number : ℕ) (raw : String) : String :=
  "[警告] " ++ toString line_number ++ "行目: 緯度の値「" ++ raw
    ++ "」が不正なため、この行をスキップします。"

/-- Warning printed (main.rs line 103) when the longitude field of a row
does not parse. -/
def lonWarning (line_number : ℕ) (raw : String) : String :=
  "[警告] " ++ toString line_number ++ "行目: 経度の値「" ++ raw
    ++ "」が不正なため、この行をスキップします。"

/-- Datum dispatch of main.rs lines 108-115: for `JGS` the external `proj`
capability is called with the pair ordered `(lon, lat)` and its result,
ordered `(converted_lon, converted_lat)`, is swapped back to
`(lat, lon)`; for `WGS` the coordinate passes through unchanged.  An error
of the capability propagates (the `?` on line 111). -/
def transform (convert : ℚ × ℚ → Except String (ℚ × ℚ)) (datum : Datum)
    (lat lon : ℚ) : Except String (ℚ × ℚ) :=
  match datum with
  | Datum.JGS =>
      match convert (lon, lat) with
      | Except.error e => Except.error e
      | Except.ok (converted_lon, converted_lat) => Except.ok (converted_lat, converted_lon)
  | Datum.WGS => Except.ok (lat, lon)

/-- The record loop of `main` (main.rs lines 83-121).  Arguments: the
parser standing for `str::parse::<f64>` (applied to the trimmed field, as on
lines 90 and 100), the external converter, datum, level, the resolved column
indices, the 1-based source line of the first remaining record, and the
remaining records.  Result: the data rows written to the output, the
warnings printed to stderr, and the final status (`Except.error` when a `?`
aborted the run). -/
def runRows (parse : String → Option ℚ) (convert : ℚ × ℚ → Except String (ℚ × ℚ))
    (datum : Datum) (level : MeshLevel) (lat_idx lon_idx : ℕ) :
    ℕ → List (List String) → List (List String) × List String × Except String Unit
  | _, [] => ([], [], Except.ok ())
  | line_number, record :: rest =>
      match parse ((record.getD lat_idx "").trim) with
      | none =>
          let res := runRows parse convert datum level lat_idx lon_idx (line_number + 1) rest
          (res.1, latWarning line_number (record.getD lat_idx "") :: res.2.1, res.2.2)
      | some lat =>
          match parse ((record.getD lon_idx "").trim) with
          | none =>
              let res := runRows parse convert datum level lat_idx lon_idx (line_number + 1) rest
              (res.1, lonWarning line_number (record.getD lon_idx "") :: res.2.1, res.2.2)
          | some lon =>
              match transform convert datum lat lon with
              | Except.error e => ([], [], Except.error e)
              | Except.ok (wgs_lat, wgs_lon) =>
                  let res := runRows parse convert datum level lat_idx lon_idx (line_number + 1) rest
                  ((record ++ [get_mesh_code wgs_lat wgs_lon level]) :: res.1, res.2.1, res.2.2)

/-- The whole of `main` after the CSV reader and writer are opened
(main.rs lines 66-124): resolve the two column names in the header
(`position`, lines 67-74), write the extended header (lines 76-78),
construct the EPSG:4301→EPSG:4326 converter (line 81, modelled by the
`proj_init` argument since `Proj::new_known_crs` is external), then run the
record loop starting at source line 2.  The first component collects every
record written to the output file, header included. -/
def mainRun (parse : String → Option ℚ)
    (proj_init : Except String (ℚ × ℚ → Except String (ℚ × ℚ)))
    (lat_name lon_name : String) (datum : Datum) (level : MeshLevel)
    (headers : List String) (rows : List (List String)) :
    List (List String) × List String × Except String Unit :=
  match headers.findIdx? (fun hdr => hdr == lat_name) with
  | none => ([], [], Except.error "緯度列が見つかりません")
  | some lat_idx =>
      match headers.findIdx? (fun hdr => hdr == lon_name) with
      | none => ([], [], Except.error "経度列が見つかりません")
      | some lon_idx =>
          match proj_init with
          | Except.error e => ([headers ++ ["mesh_code"]], [], Except.error e)
          | Except.ok convert =>
              let res := runRows parse convert datum level lat_idx lon_idx 2 rows
              ((headers ++ ["mesh_code"]) :: res.1, res.2.1, res.2.2)

/-- Modelled from the spec (§4.2 stage 1, quoted by claim C1): the base code
as the concatenation, in the order `p, u, q, v, r, w`, of the spec's
formulas, each rendered by plain signed decimal `toString` with no
saturating cast.  This is the comparison definition for the refinement
claim C1; the executable code is `base_code`. -/
def specStandardCode (lat lon : ℚ) : String :=
  let pS : ℤ := ⌊lat * 60 / 40⌋
  let aS : ℚ := lat * 60 - 40 * pS
  let qS : ℤ := ⌊aS / 5⌋
  let bS : ℚ := aS - 5 * qS
  let rS : ℤ := ⌊bS * 60 / 30⌋
  let uS : ℤ := ⌊lon⌋ - 100
  let fS : ℚ := lon - ⌊lon⌋
  let vS : ℤ := ⌊fS * 60 / 7.5⌋
  let gS : ℚ := fS * 60 - 7.5 * vS
  let wS : ℤ := ⌊gS * 60 / 45⌋
  toString pS ++ toString uS ++ toString qS ++ toString vS ++ toString rS ++ toString wS

/-- Modelled from the spec (§4.3 step 2, quoted by claim C4): a row is kept
exactly when both coordinate fields parse after trimming. -/
def rowValid (parse : String → Option ℚ) (lat_idx lon_idx : ℕ)
    (record : List String) : Bool :=
  (parse ((record.getD lat_idx "").trim)).isSome
    && (parse ((record.getD lon_idx "").trim)).isSome

/-- Modelled from the spec (§4.3 step 4, quoted by claim C4): the output row
for a retained record is the record with the mesh code of its transformed
coordinate appended as one extra field.  (The fallback branches for rows
that would not be retained are never used under the claims.) -/
def augmentRow (parse : String → Option ℚ) (convert : ℚ × ℚ → Except String (ℚ × ℚ))
    (datum : Datum) (level : MeshLevel) (lat_idx lon_idx : ℕ)
    (record : List String) : List String :=
  match parse ((record.getD lat_idx "").trim) with
  | none => record
  | some lat =>
      match parse ((record.getD lon_idx "").trim) with
      | none => record
      | some lon =>
          match transform convert datum lat lon with
          | Except.error _ => record
          | Except.ok (wgs_lat, wgs_lon) => record ++ [get_mesh_code wgs_lat wgs_lon level]

/-- Modelled from the spec (§4.3 step 2 / §8 row-skip property, quoted by
claim C4): one warning per skipped row, carrying that row's source line
number (the first remaining record being on line `line_number`). -/
def expectedWarns (parse : String → Option ℚ) (lat_idx lon_idx : ℕ) :
    ℕ → List (List String) → List String
  | _, [] => []
  | line_number, record :: rest =>
      match parse ((record.getD lat_idx "").trim) with
      | none =>
          latWarning line_number (record.getD lat_idx "")
            :: expectedWarns parse lat_idx lon_idx (line_number + 1) rest
      | some _ =>
          match parse ((record.getD lon_idx "").trim) with
          | none =>
              lonWarning line_number (record.getD lon_idx "")
                :: expectedWarns parse lat_idx lon_idx (line_number + 1) rest
          | some _ => expectedWarns parse lat_idx lon_idx (line_number + 1) rest

end Meshify

namespace Meshify

/-! Arithmetic facts about the modelled Rust float operations. -/

theorem ratTrunc_of_nonneg {X : ℚ} (hX : 0 ≤ X) : ratTrunc X = ⌊X⌋ := by
  unfold ratTrunc
  rw [if_pos hX]

theorem rustRem_eq_sub_floor {a b : ℚ} (ha : 0 ≤ a) (hb : 0 < b) :
    rustRem a b = a - b * ⌊a / b⌋ := by
  unfold rustRem
  rw [ratTrunc_of_nonneg (div_nonneg ha hb.le)]

theorem sub_floor_nonneg (a : ℚ) {b : ℚ} (hb : 0 < b) : 0 ≤ a - b * ⌊a / b⌋ := by
  have h1 : (⌊a / b⌋ : ℚ) ≤ a / b := Int.floor_le _
  have h2 : b * (⌊a / b⌋ : ℚ) ≤ b * (a / b) := mul_le_mul_of_nonneg_left h1 hb.le
  have h3 : b * (a / b) = a := by field_simp
  linarith

theorem sub_floor_lt (a : ℚ) {b : ℚ} (hb : 0 < b) : a - b * ⌊a / b⌋ < b := by
  have h1 : a / b < (⌊a / b⌋ : ℚ) + 1 := Int.lt_floor_add_one _
  have h2 : b * (a / b) < b * ((⌊a / b⌋ : ℚ) + 1) := mul_lt_mul_of_pos_left h1 hb
  have h3 : b * (a / b) = a := by field_simp
  nlinarith

theorem rustRem_nonneg {a b : ℚ} (ha : 0 ≤ a) (hb : 0 < b) : 0 ≤ rustRem a b := by
  rw [rustRem_eq_sub_floor ha hb]
  exact sub_floor_nonneg a hb

theorem rustRem_lt {b : ℚ} (a : ℚ) (hb : 0 < b) : rustRem a b < b := by
  rcases le_or_lt 0 a with ha | ha
  · rw [rustRem_eq_sub_floor ha hb]
    exact sub_floor_lt a hb
  · have hd : a / b < 0 := div_neg_of_neg_of_pos ha hb
    unfold rustRem ratTrunc
    rw [if_neg (not_le.mpr hd)]
    have h1 : a / b ≤ (⌈a / b⌉ : ℚ) := Int.le_ceil _
    have h2 : b * (a / b) ≤ b * (⌈a / b⌉ : ℚ) := mul_le_mul_of_nonneg_left h1 hb.le
    have h3 : b * (a / b) = a := by field_simp
    linarith

theorem f64floor_le (X : ℚ) : f64floor X ≤ X := Int.floor_le X

theorem f64floor_nonneg {X : ℚ} (hX : 0 ≤ X) : 0 ≤ f64floor X := by
  unfold f64floor
  exact_mod_cast Int.floor_nonneg.mpr hX

theorem f64floor_le_one {X : ℚ} (hX : X < 2) : f64floor X ≤ 1 := by
  unfold f64floor
  have h1 : ⌊X⌋ < 2 := Int.floor_lt.mpr (by exact_mod_cast hX)
  exact_mod_cast (by omega : ⌊X⌋ ≤ 1)

theorem floor_le_int {X : ℚ} {zc : ℤ} (hX : X < zc + 1) : ⌊X⌋ ≤ zc := by
  have h1 : ⌊X⌋ < zc + 1 := Int.floor_lt.mpr (by push_cast; exact hX)
  omega

theorem asU32_intCast (zc : ℤ) :
    asU32 (zc : ℚ) = if zc < 0 then 0 else min zc.toNat (2 ^ 32 - 1) := by
  unfold asU32
  rw [Int.floor_intCast]
  by_cases hz : zc < 0
  · rw [if_pos (by exact_mod_cast hz), if_pos hz]
  · rw [if_neg (by exact_mod_cast hz), if_neg hz]

theorem toString_toNat_eq {zc : ℤ} (hz : 0 ≤ zc) : toString zc.toNat = toString zc := by
  cases zc with
  | ofNat k => rfl
  | negSucc k => exact absurd hz (not_le.mpr (Int.negSucc_lt_zero k))

theorem toString_asU32_intCast {zc : ℤ} (h0 : 0 ≤ zc) (h1 : zc < 2 ^ 32) :
    toString (asU32 (zc : ℚ)) = toString zc := by
  rw [asU32_intCast, if_neg (not_lt.mpr h0), min_eq_left (by omega)]
  exact toString_toNat_eq h0

theorem asU32_le {X : ℚ} {k : ℕ} (hX : X < k + 1) : asU32 X ≤ k := by
  unfold asU32
  split
  · exact Nat.zero_le k
  · have h1 : ⌊X⌋ < (k : ℤ) + 1 := Int.floor_lt.mpr (by push_cast; exact hX)
    have h2 : ⌊X⌋.toNat ≤ k := by omega
    exact le_trans (min_le_left _ _) h2

theorem le_asU32 {X : ℚ} {k : ℕ} (hk : (k : ℚ) ≤ X) (hks : k ≤ 2 ^ 32 - 1) :
    k ≤ asU32 X := by
  unfold asU32
  split
  · next hneg => exact absurd (lt_of_le_of_lt hk hneg) (not_lt.mpr (Nat.cast_nonneg k))
  · refine le_min ?_ hks
    have h1 : (k : ℤ) ≤ ⌊X⌋ := Int.le_floor.mpr (by push_cast; exact hk)
    omega

theorem toString_len_one {k : ℕ} (hk : k ≤ 9) : (toString k).length = 1 := by
  interval_cases k <;> rfl

theorem floor_eval {X : ℚ} {zc : ℤ} (h1 : (zc : ℚ) ≤ X) (h2 : X < zc + 1) : ⌊X⌋ = zc :=
  Int.floor_eq_iff.mpr ⟨h1, h2⟩

theorem ceil_eval {X : ℚ} {zc : ℤ} (h1 : (zc : ℚ) - 1 < X) (h2 : X ≤ zc) : ⌈X⌉ = zc :=
  Int.ceil_eq_iff.mpr ⟨h1, h2⟩

end Meshify

namespace Meshify

/-! Bounds on the encoder's intermediate values. -/

theorem ceil_as_floor (X : ℚ) : ⌈X⌉ = -⌊-X⌋ := by
  rw [Int.floor_neg]
  omega

theorem c_rem_lt (lat : ℚ) : c_rem lat < 30 := rustRem_lt _ (by norm_num)

theorem h_rem_lt (lon : ℚ) : h_rem lon < 45 := rustRem_lt _ (by norm_num)

theorem d_rem_lt (lat : ℚ) : d_rem lat < 15 := rustRem_lt _ (by norm_num)

theorem i_rem_lt (lon : ℚ) : i_rem lon < 22.5 := rustRem_lt _ (by norm_num)

theorem e_rem_lt (lat : ℚ) : e_rem lat < 7.5 := rustRem_lt _ (by norm_num)

theorem j_rem_lt (lon : ℚ) : j_rem lon < 11.25 := rustRem_lt _ (by norm_num)

theorem s_le_one (lat : ℚ) : s lat ≤ 1 := by
  apply f64floor_le_one
  rw [div_lt_iff₀ (by norm_num : (0:ℚ) < 15)]
  have := c_rem_lt lat
  linarith

theorem x_le_one (lon : ℚ) : x lon ≤ 1 := by
  apply f64floor_le_one
  rw [div_lt_iff₀ (by norm_num : (0:ℚ) < 22.5)]
  have := h_rem_lt lon
  nlinarith [h_rem_lt lon]

theorem t_le_one (lat : ℚ) : t lat ≤ 1 := by
  apply f64floor_le_one
  rw [div_lt_iff₀ (by norm_num : (0:ℚ) < 7.5)]
  nlinarith [d_rem_lt lat]

theorem y_le_one (lon : ℚ) : y lon ≤ 1 := by
  apply f64floor_le_one
  rw [div_lt_iff₀ (by norm_num : (0:ℚ) < 11.25)]
  nlinarith [i_rem_lt lon]

theorem t2_le_one (lat : ℚ) : t2 lat ≤ 1 := by
  apply f64floor_le_one
  rw [div_lt_iff₀ (by norm_num : (0:ℚ) < 3.75)]
  nlinarith [e_rem_lt lat]

theorem y2_le_one (lon : ℚ) : y2 lon ≤ 1 := by
  apply f64floor_le_one
  rw [div_lt_iff₀ (by norm_num : (0:ℚ) < 5.625)]
  nlinarith [j_rem_lt lon]

theorem asU32_m_le_four (lat lon : ℚ) : asU32 (m lat lon) ≤ 4 := by
  apply asU32_le
  have h1 := s_le_one lat
  have h2 := x_le_one lon
  unfold m
  push_cast
  linarith

theorem asU32_n_le_four (lat lon : ℚ) : asU32 (n lat lon) ≤ 4 := by
  apply asU32_le
  have h1 := t_le_one lat
  have h2 := y_le_one lon
  unfold n
  push_cast
  linarith

theorem asU32_o_le_four (lat lon : ℚ) : asU32 (o lat lon) ≤ 4 := by
  apply asU32_le
  have h1 := t2_le_one lat
  have h2 := y2_le_one lon
  unfold o
  push_cast
  linarith

/-- C2: for every coordinate, the Half code is the Standard code with one
more digit appended, the Quarter code is the Half code with one more digit
appended, and the Eighth code is the Quarter code with one more digit
appended — so each level's code has the previous level's code as a prefix
and is exactly one character longer. -/
theorem C2_hierarchical_containment (lat lon : ℚ) :
    (get_mesh_code lat lon MeshLevel.Half
        = get_mesh_code lat lon MeshLevel.Standard ++ toString (asU32 (m lat lon))
      ∧ (toString (asU32 (m lat lon))).length = 1)
    ∧ (get_mesh_code lat lon MeshLevel.Quarter
        = get_mesh_code lat lon MeshLevel.Half ++ toString (asU32 (n lat lon))
      ∧ (toString (asU32 (n lat lon))).length = 1)
    ∧ (get_mesh_code lat lon MeshLevel.Eighth
        = get_mesh_code lat lon MeshLevel.Quarter ++ toString (asU32 (o lat lon))
      ∧ (toString (asU32 (o lat lon))).length = 1) :=
  ⟨⟨rfl, toString_len_one (le_trans (asU32_m_le_four lat lon) (by norm_num))⟩,
   ⟨rfl, toString_len_one (le_trans (asU32_n_le_four lat lon) (by norm_num))⟩,
   ⟨rfl, toString_len_one (le_trans (asU32_o_le_four lat lon) (by norm_num))⟩⟩

end Meshify

namespace Meshify

/-! Nonnegativity of the intermediate values: unconditional on the
longitude side (the fractional part is taken first), and for `0 ≤ lat` on
the latitude side. -/

theorem lat_min_nonneg {lat : ℚ} (hlat : 0 ≤ lat) : 0 ≤ lat_min lat :=
  mul_nonneg hlat (by norm_num)

theorem a_rem_nonneg {lat : ℚ} (hlat : 0 ≤ lat) : 0 ≤ a_rem lat :=
  rustRem_nonneg (lat_min_nonneg hlat) (by norm_num)

theorem b_rem_nonneg {lat : ℚ} (hlat : 0 ≤ lat) : 0 ≤ b_rem lat :=
  rustRem_nonneg (a_rem_nonneg hlat) (by norm_num)

theorem lat_sec_in_b_nonneg {lat : ℚ} (hlat : 0 ≤ lat) : 0 ≤ lat_sec_in_b lat :=
  mul_nonneg (b_rem_nonneg hlat) (by norm_num)

theorem c_rem_nonneg {lat : ℚ} (hlat : 0 ≤ lat) : 0 ≤ c_rem lat :=
  rustRem_nonneg (lat_sec_in_b_nonneg hlat) (by norm_num)

theorem d_rem_nonneg {lat : ℚ} (hlat : 0 ≤ lat) : 0 ≤ d_rem lat :=
  rustRem_nonneg (c_rem_nonneg hlat) (by norm_num)

theorem e_rem_nonneg {lat : ℚ} (hlat : 0 ≤ lat) : 0 ≤ e_rem lat :=
  rustRem_nonneg (d_rem_nonneg hlat) (by norm_num)

theorem lon_deg_rem_nonneg (lon : ℚ) : 0 ≤ lon_deg_rem lon := by
  unfold lon_deg_rem
  have := f64floor_le lon
  linarith

theorem lon_min_rem_nonneg (lon : ℚ) : 0 ≤ lon_min_rem lon :=
  mul_nonneg (lon_deg_rem_nonneg lon) (by norm_num)

theorem g_rem_nonneg (lon : ℚ) : 0 ≤ g_rem lon :=
  rustRem_nonneg (lon_min_rem_nonneg lon) (by norm_num)

theorem lon_sec_in_g_nonneg (lon : ℚ) : 0 ≤ lon_sec_in_g lon :=
  mul_nonneg (g_rem_nonneg lon) (by norm_num)

theorem h_rem_nonneg (lon : ℚ) : 0 ≤ h_rem lon :=
  rustRem_nonneg (lon_sec_in_g_nonneg lon) (by norm_num)

theorem i_rem_nonneg (lon : ℚ) : 0 ≤ i_rem lon :=
  rustRem_nonneg (h_rem_nonneg lon) (by norm_num)

theorem j_rem_nonneg (lon : ℚ) : 0 ≤ j_rem lon :=
  rustRem_nonneg (i_rem_nonneg lon) (by norm_num)

theorem s_nonneg {lat : ℚ} (hlat : 0 ≤ lat) : 0 ≤ s lat :=
  f64floor_nonneg (div_nonneg (c_rem_nonneg hlat) (by norm_num))

theorem t_nonneg {lat : ℚ} (hlat : 0 ≤ lat) : 0 ≤ t lat :=
  f64floor_nonneg (div_nonneg (d_rem_nonneg hlat) (by norm_num))

theorem t2_nonneg {lat : ℚ} (hlat : 0 ≤ lat) : 0 ≤ t2 lat :=
  f64floor_nonneg (div_nonneg (e_rem_nonneg hlat) (by norm_num))

theorem x_nonneg (lon : ℚ) : 0 ≤ x lon :=
  f64floor_nonneg (div_nonneg (h_rem_nonneg lon) (by norm_num))

theorem y_nonneg (lon : ℚ) : 0 ≤ y lon :=
  f64floor_nonneg (div_nonneg (i_rem_nonneg lon) (by norm_num))

theorem y2_nonneg (lon : ℚ) : 0 ≤ y2 lon :=
  f64floor_nonneg (div_nonneg (j_rem_nonneg lon) (by norm_num))

theorem digit_mem {X : ℚ} (hge : 1 ≤ X) (hlt : X < 5) :
    asU32 X ∈ ({1, 2, 3, 4} : Finset ℕ) := by
  have h1 : 1 ≤ asU32 X := le_asU32 (by exact_mod_cast hge) (by norm_num)
  have h2 : asU32 X ≤ 4 := asU32_le (by push_cast; linarith)
  simp only [Finset.mem_insert, Finset.mem_singleton]
  omega

/-- C3 (amended): for every coordinate the encoder appends exactly 0, 1, 2
and 3 single-character refinement digits after the 6-group base code for
the Standard, Half, Quarter and Eighth levels respectively; and whenever
`0 ≤ lat` every appended refinement digit lies in {1,2,3,4}.  (For negative
latitudes a quadrant value can be negative and the `as u32` cast collapses
it to the digit 0 — see the counterexample.) -/
theorem C3_refinement_digit_counts (lat lon : ℚ) :
    ((get_mesh_code lat lon MeshLevel.Standard).length = (base_code lat lon).length + 0
      ∧ (get_mesh_code lat lon MeshLevel.Half).length = (base_code lat lon).length + 1
      ∧ (get_mesh_code lat lon MeshLevel.Quarter).length = (base_code lat lon).length + 2
      ∧ (get_mesh_code lat lon MeshLevel.Eighth).length = (base_code lat lon).length + 3)
    ∧ (0 ≤ lat →
        asU32 (m lat lon) ∈ ({1, 2, 3, 4} : Finset ℕ)
        ∧ asU32 (n lat lon) ∈ ({1, 2, 3, 4} : Finset ℕ)
        ∧ asU32 (o lat lon) ∈ ({1, 2, 3, 4} : Finset ℕ)) := by
  have hm1 : (toString (asU32 (m lat lon))).length = 1 :=
    toString_len_one (le_trans (asU32_m_le_four lat lon) (by norm_num))
  have hn1 : (toString (asU32 (n lat lon))).length = 1 :=
    toString_len_one (le_trans (asU32_n_le_four lat lon) (by norm_num))
  have ho1 : (toString (asU32 (o lat lon))).length = 1 :=
    toString_len_one (le_trans (asU32_o_le_four lat lon) (by norm_num))
  constructor
  · refine ⟨by simp [get_mesh_code], ?_, ?_, ?_⟩
    · show (base_code lat lon ++ toString (asU32 (m lat lon))).length = _
      rw [String.length_append, hm1]
    · show (base_code lat lon ++ toString (asU32 (m lat lon))
          ++ toString (asU32 (n lat lon))).length = _
      rw [String.length_append, String.length_append, hm1, hn1]
    · show (base_code lat lon ++ toString (asU32 (m lat lon))
          ++ toString (asU32 (n lat lon)) ++ toString (asU32 (o lat lon))).length = _
      rw [String.length_append, String.length_append, String.length_append, hm1, hn1, ho1]
  · intro hlat
    have hmge : 1 ≤ m lat lon := by
      have h1 := s_nonneg hlat
      have h2 := x_nonneg lon
      unfold m
      linarith
    have hmlt : m lat lon < 5 := by
      have h1 := s_le_one lat
      have h2 := x_le_one lon
      unfold m
      linarith
    have hnge : 1 ≤ n lat lon := by
      have h1 := t_nonneg hlat
      have h2 := y_nonneg lon
      unfold n
      linarith
    have hnlt : n lat lon < 5 := by
      have h1 := t_le_one lat
      have h2 := y_le_one lon
      unfold n
      linarith
    have hoge : 1 ≤ o lat lon := by
      have h1 := t2_nonneg hlat
      have h2 := y2_nonneg lon
      unfold o
      linarith
    have holt : o lat lon < 5 := by
      have h1 := t2_le_one lat
      have h2 := y2_le_one lon
      unfold o
      linarith
    exact ⟨digit_mem hmge hmlt, digit_mem hnge hnlt, digit_mem hoge holt⟩

/-- C3 counterexample: at latitude −0.99, longitude 139 the half-mesh stage
appends the digit `asU32 (m …)`, and that digit is 0, not a member of
{1,2,3,4} — the claim's "for every coordinate" fails for negative
latitudes. -/
theorem C3_counterexample :
    get_mesh_code (-99/100) 139 MeshLevel.Half
        = get_mesh_code (-99/100) 139 MeshLevel.Standard ++ toString (asU32 (m (-99/100) 139))
    ∧ asU32 (m (-99/100) 139) ∉ ({1, 2, 3, 4} : Finset ℕ) := by
  have hm : m (-99/100 : ℚ) 139 = -3 := by
    norm_num [m, s, x, c_rem, lat_sec_in_b, b_rem, a_rem, lat_min, h_rem, lon_sec_in_g,
      g_rem, lon_min_rem, lon_deg_rem, rustRem, ratTrunc, f64floor, ceil_as_floor]
  have h0 : asU32 ((-3 : ℚ)) = 0 := by norm_num [asU32]
  refine ⟨rfl, ?_⟩
  rw [hm, h0]
  decide

/-- C3 witness: at latitude 36, longitude 139 all three refinement digits
lie in {1,2,3,4}. -/
theorem C3_witness :
    asU32 (m 36 139) ∈ ({1, 2, 3, 4} : Finset ℕ)
    ∧ asU32 (n 36 139) ∈ ({1, 2, 3, 4} : Finset ℕ)
    ∧ asU32 (o 36 139) ∈ ({1, 2, 3, 4} : Finset ℕ) :=
  (C3_refinement_digit_counts 36 139).2 (by norm_num)

end Meshify

namespace Meshify

theorem floor_lt_twoPow {X : ℚ} (hX : X < 4096) : ⌊X⌋ < 2 ^ 32 := by
  have h1 : ⌊X⌋ ≤ 4095 := floor_le_int (by push_cast; linarith)
  omega

/-- C1 (amended): for coordinates with `0 ≤ lat ≤ 90` and `100 ≤ lon ≤ 180`
the Standard-level code equals the spec's concatenation of the plain decimal
renderings of `p, u, q, v, r, w`, and that concatenation is an initial
segment of the code of every level.  (For `lat < 0` or `lon < 100` a band
index is negative and the `as u32` cast saturates it to 0, so the spec's
signed rendering differs — see the counterexample and claim C9.) -/
theorem C1_standard_code_matches_spec (lat lon : ℚ) (hlat0 : 0 ≤ lat) (hlat90 : lat ≤ 90)
    (hlon100 : 100 ≤ lon) (hlon180 : lon ≤ 180) :
    get_mesh_code lat lon MeshLevel.Standard = specStandardCode lat lon
    ∧ ∀ level : MeshLevel, ∃ tail : String,
        get_mesh_code lat lon level = specStandardCode lat lon ++ tail := by
  have hlm : (0 : ℚ) ≤ lat * 60 := mul_nonneg hlat0 (by norm_num)
  have ha : a_rem lat = lat * 60 - 40 * ⌊lat * 60 / 40⌋ := by
    unfold a_rem lat_min
    rw [rustRem_eq_sub_floor hlm (by norm_num)]
  have hann : 0 ≤ a_rem lat := a_rem_nonneg hlat0
  have halt : a_rem lat < 40 := rustRem_lt _ (by norm_num)
  have hb : b_rem lat = a_rem lat - 5 * ⌊a_rem lat / 5⌋ := by
    unfold b_rem
    rw [rustRem_eq_sub_floor hann (by norm_num)]
  have hbnn : 0 ≤ b_rem lat := b_rem_nonneg hlat0
  have hblt : b_rem lat < 5 := rustRem_lt _ (by norm_num)
  have hA0 : 0 ≤ lat * 60 - 40 * ⌊lat * 60 / 40⌋ := by
    rw [← ha]
    exact hann
  have hA40 : lat * 60 - 40 * ⌊lat * 60 / 40⌋ < 40 := by
    rw [← ha]
    exact halt
  have hB0 : 0 ≤ lat * 60 - 40 * ⌊lat * 60 / 40⌋
      - 5 * ⌊(lat * 60 - 40 * ⌊lat * 60 / 40⌋) / 5⌋ := by
    rw [← ha, ← hb]
    exact hbnn
  have hB5 : lat * 60 - 40 * ⌊lat * 60 / 40⌋
      - 5 * ⌊(lat * 60 - 40 * ⌊lat * 60 / 40⌋) / 5⌋ < 5 := by
    rw [← ha, ← hb]
    exact hblt
  have hfnn : 0 ≤ lon - (⌊lon⌋ : ℚ) := by
    have := Int.floor_le lon
    linarith
  have hflt : lon - (⌊lon⌋ : ℚ) < 1 := by
    have := Int.lt_floor_add_one lon
    linarith
  have hg : g_rem lon = (lon - ⌊lon⌋) * 60 - 7.5 * ⌊(lon - ⌊lon⌋) * 60 / 7.5⌋ := by
    unfold g_rem lon_min_rem lon_deg_rem f64floor
    rw [rustRem_eq_sub_floor (mul_nonneg hfnn (by norm_num)) (by norm_num)]
  have hglt : g_rem lon < 7.5 := rustRem_lt _ (by norm_num)
  have hG0 : 0 ≤ (lon - ⌊lon⌋) * 60 - 7.5 * ⌊(lon - ⌊lon⌋) * 60 / 7.5⌋ := by
    rw [← hg]
    exact g_rem_nonneg lon
  have hG7 : (lon - ⌊lon⌋) * 60 - 7.5 * ⌊(lon - ⌊lon⌋) * 60 / 7.5⌋ < 7.5 := by
    rw [← hg]
    exact hglt
  have ep : toString (asU32 (p lat)) = toString ⌊lat * 60 / 40⌋ := by
    have hpe : p lat = ((⌊lat * 60 / 40⌋ : ℤ) : ℚ) := rfl
    rw [hpe]
    apply toString_asU32_intCast
    · exact Int.floor_nonneg.mpr (div_nonneg hlm (by norm_num))
    · apply floor_lt_twoPow
      rw [div_lt_iff₀ (by norm_num : (0:ℚ) < 40)]
      linarith
  have eu : toString (asU32 (u lon)) = toString (⌊lon⌋ - 100) := by
    have hue : u lon = ((⌊lon⌋ - 100 : ℤ) : ℚ) := by
      unfold u f64floor
      push_cast
      ring
    rw [hue]
    apply toString_asU32_intCast
    · have h1 : (100 : ℤ) ≤ ⌊lon⌋ := Int.le_floor.mpr (by push_cast; linarith)
      omega
    · have h1 : ⌊lon⌋ ≤ 180 := floor_le_int (by push_cast; linarith)
      omega
  have eq1 : toString (asU32 (q lat))
      = toString ⌊(lat * 60 - 40 * ⌊lat * 60 / 40⌋) / 5⌋ := by
    have hqe : q lat = ((⌊(lat * 60 - 40 * ⌊lat * 60 / 40⌋) / 5⌋ : ℤ) : ℚ) := by
      unfold q f64floor
      rw [ha]
    rw [hqe]
    apply toString_asU32_intCast
    · exact Int.floor_nonneg.mpr (div_nonneg hA0 (by norm_num))
    · apply floor_lt_twoPow
      rw [div_lt_iff₀ (by norm_num : (0:ℚ) < 5)]
      linarith
  have ev : toString (asU32 (v lon)) = toString ⌊(lon - ⌊lon⌋) * 60 / 7.5⌋ := by
    have hve : v lon = ((⌊(lon - ⌊lon⌋) * 60 / 7.5⌋ : ℤ) : ℚ) := rfl
    rw [hve]
    apply toString_asU32_intCast
    · exact Int.floor_nonneg.mpr (div_nonneg (mul_nonneg hfnn (by norm_num)) (by norm_num))
    · apply floor_lt_twoPow
      rw [div_lt_iff₀ (by norm_num : (0:ℚ) < 7.5)]
      linarith
  have er : toString (asU32 (r lat))
      = toString ⌊(lat * 60 - 40 * ⌊lat * 60 / 40⌋
          - 5 * ⌊(lat * 60 - 40 * ⌊lat * 60 / 40⌋) / 5⌋) * 60 / 30⌋ := by
    have hre : r lat = ((⌊(lat * 60 - 40 * ⌊lat * 60 / 40⌋
        - 5 * ⌊(lat * 60 - 40 * ⌊lat * 60 / 40⌋) / 5⌋) * 60 / 30⌋ : ℤ) : ℚ) := by
      unfold r lat_sec_in_b f64floor
      rw [hb, ha]
    rw [hre]
    apply toString_asU32_intCast
    · exact Int.floor_nonneg.mpr (div_nonneg (mul_nonneg hB0 (by norm_num)) (by norm_num))
    · apply floor_lt_twoPow
      rw [div_lt_iff₀ (by norm_num : (0:ℚ) < 30)]
      linarith
  have ew : toString (asU32 (w lon))
      = toString ⌊((lon - ⌊lon⌋) * 60 - 7.5 * ⌊(lon - ⌊lon⌋) * 60 / 7.5⌋) * 60 / 45⌋ := by
    have hwe : w lon = ((⌊((lon - ⌊lon⌋) * 60
        - 7.5 * ⌊(lon - ⌊lon⌋) * 60 / 7.5⌋) * 60 / 45⌋ : ℤ) : ℚ) := by
      unfold w lon_sec_in_g f64floor
      rw [hg]
    rw [hwe]
    apply toString_asU32_intCast
    · exact Int.floor_nonneg.mpr (div_nonneg (mul_nonneg hG0 (by norm_num)) (by norm_num))
    · apply floor_lt_twoPow
      rw [div_lt_iff₀ (by norm_num : (0:ℚ) < 45)]
      linarith
  have hbase : base_code lat lon = specStandardCode lat lon := by
    simp only [base_code, specStandardCode]
    rw [ep, eu, eq1, ev, er, ew]
  refine ⟨hbase, fun level => ?_⟩
  cases level with
  | Standard => exact ⟨"", by rw [← hbase]; exact (String.append_empty _).symm⟩
  | Half => exact ⟨toString (asU32 (m lat lon)), by rw [← hbase]; rfl⟩
  | Quarter =>
      refine ⟨toString (asU32 (m lat lon)) ++ toString (asU32 (n lat lon)), ?_⟩
      rw [← hbase]
      show base_code lat lon ++ toString (asU32 (m lat lon)) ++ toString (asU32 (n lat lon)) = _
      rw [String.append_assoc]
  | Eighth =>
      refine ⟨toString (asU32 (m lat lon)) ++ toString (asU32 (n lat lon))
        ++ toString (asU32 (o lat lon)), ?_⟩
      rw [← hbase]
      show base_code lat lon ++ toString (asU32 (m lat lon)) ++ toString (asU32 (n lat lon))
          ++ toString (asU32 (o lat lon)) = _
      rw [String.append_assoc, String.append_assoc, String.append_assoc]

end Meshify

namespace Meshify

theorem asU32_of_neg {X : ℚ} (hX : X < 0) : asU32 X = 0 := by
  unfold asU32
  rw [if_pos hX]

theorem base_code_35_99 : base_code 35 99 = "5204000" := by
  have hp : p (35 : ℚ) = 52 := by norm_num [p, lat_min, f64floor]
  have hu : u (99 : ℚ) = -1 := by norm_num [u, f64floor]
  have hq : q (35 : ℚ) = 4 := by
    norm_num [q, a_rem, lat_min, rustRem, ratTrunc, f64floor]
  have hv : v (99 : ℚ) = 0 := by norm_num [v, lon_min_rem, lon_deg_rem, f64floor]
  have hr : r (35 : ℚ) = 0 := by
    norm_num [r, lat_sec_in_b, b_rem, a_rem, lat_min, rustRem, ratTrunc, f64floor]
  have hw : w (99 : ℚ) = 0 := by
    norm_num [w, lon_sec_in_g, g_rem, lon_min_rem, lon_deg_rem, rustRem, ratTrunc, f64floor]
  have ha52 : asU32 (52 : ℚ) = 52 := by simp [asU32]
  have ha4 : asU32 (4 : ℚ) = 4 := by simp [asU32]
  have ha0 : asU32 (0 : ℚ) = 0 := by simp [asU32]
  have haneg : asU32 (-1 : ℚ) = 0 := asU32_of_neg (by norm_num)
  simp only [base_code]
  rw [hp, hu, hq, hv, hr, hw, ha52, ha4, ha0, haneg]
  decide

theorem base_code_35_98 : base_code 35 98 = "5204000" := by
  have hp : p (35 : ℚ) = 52 := by norm_num [p, lat_min, f64floor]
  have hu : u (98 : ℚ) = -2 := by norm_num [u, f64floor]
  have hq : q (35 : ℚ) = 4 := by
    norm_num [q, a_rem, lat_min, rustRem, ratTrunc, f64floor]
  have hv : v (98 : ℚ) = 0 := by norm_num [v, lon_min_rem, lon_deg_rem, f64floor]
  have hr : r (35 : ℚ) = 0 := by
    norm_num [r, lat_sec_in_b, b_rem, a_rem, lat_min, rustRem, ratTrunc, f64floor]
  have hw : w (98 : ℚ) = 0 := by
    norm_num [w, lon_sec_in_g, g_rem, lon_min_rem, lon_deg_rem, rustRem, ratTrunc, f64floor]
  have ha52 : asU32 (52 : ℚ) = 52 := by simp [asU32]
  have ha4 : asU32 (4 : ℚ) = 4 := by simp [asU32]
  have ha0 : asU32 (0 : ℚ) = 0 := by simp [asU32]
  have haneg : asU32 (-2 : ℚ) = 0 := asU32_of_neg (by norm_num)
  simp only [base_code]
  rw [hp, hu, hq, hv, hr, hw, ha52, ha4, ha0, haneg]
  decide

/-- C1 counterexample: at latitude 35, longitude 99 the code's Standard
mesh code is "5204000" (the negative `u = ⌊99⌋ − 100 = −1` saturates to 0)
while the spec's concatenation renders "-1", giving "52-14000" — so the
claimed equality fails for a coordinate inside the spec's stated domain. -/
theorem C1_counterexample :
    get_mesh_code 35 99 MeshLevel.Standard ≠ specStandardCode 35 99 := by
  have hcode : get_mesh_code 35 99 MeshLevel.Standard = "5204000" := base_code_35_99
  have hspec : specStandardCode 35 99 = "52-14000" := by
    simp only [specStandardCode]
    norm_num
    decide
  rw [hcode, hspec]
  decide

/-- C1 witness: at latitude 35, longitude 135 the Standard code coincides
with the spec's concatenation. -/
theorem C1_witness : get_mesh_code 35 135 MeshLevel.Standard = specStandardCode 35 135 :=
  (C1_standard_code_matches_spec 35 135 (by norm_num) (by norm_num) (by norm_num)
    (by norm_num)).1

/-- C9: for a negative latitude the primary latitude band `p` is negative
and its `as u32` conversion saturates to 0, and likewise the longitude band
`u = ⌊lon⌋ − 100` for `lon < 100`; consequently the distinct longitudes 98
and 99 (different integer parts, both below 100) produce identical Standard
mesh codes at latitude 35. -/
theorem C9_saturating_cast :
    (∀ lat : ℚ, -90 ≤ lat → lat < 0 → asU32 (p lat) = 0)
    ∧ (∀ lon : ℚ, -180 ≤ lon → lon < 100 → asU32 (u lon) = 0)
    ∧ get_mesh_code 35 98 MeshLevel.Standard = get_mesh_code 35 99 MeshLevel.Standard
    ∧ (98 : ℚ) ≠ 99 := by
  refine ⟨?_, ?_, ?_, by norm_num⟩
  · intro lat _ hneg
    apply asU32_of_neg
    have h1 : lat * 60 / 40 < 0 :=
      div_neg_of_neg_of_pos (by linarith) (by norm_num)
    have h2 : ⌊lat * 60 / 40⌋ < 0 := Int.floor_lt.mpr (by exact_mod_cast h1)
    have hpe : p lat = ((⌊lat * 60 / 40⌋ : ℤ) : ℚ) := rfl
    rw [hpe]
    exact_mod_cast h2
  · intro lon _ hlt
    apply asU32_of_neg
    have h1 : ⌊lon⌋ < 100 := Int.floor_lt.mpr (by exact_mod_cast hlt)
    have hue : u lon = (⌊lon⌋ : ℚ) - 100 := rfl
    rw [hue]
    have h2 : (⌊lon⌋ : ℚ) < 100 := by exact_mod_cast h1
    linarith
  · rw [show get_mesh_code 35 98 MeshLevel.Standard = base_code 35 98 from rfl,
      show get_mesh_code 35 99 MeshLevel.Standard = base_code 35 99 from rfl,
      base_code_35_98, base_code_35_99]

/-- C9 witness: at latitude −1 the `p` band saturates to 0, and at
longitude 99 the `u` band saturates to 0. -/
theorem C9_witness : asU32 (p (-1)) = 0 ∧ asU32 (u 99) = 0 :=
  ⟨C9_saturating_cast.1 (-1) (by norm_num) (by norm_num),
   C9_saturating_cast.2.1 99 (by norm_num) (by norm_num)⟩

end Meshify


namespace Meshify

/-! Step lemmas for the record loop, one per branch of `main`'s loop body. -/

theorem runRows_cons_latNone (parse : String → Option ℚ)
    (convert : ℚ × ℚ → Except String (ℚ × ℚ)) (datum : Datum) (level : MeshLevel)
    (lat_idx lon_idx line_number : ℕ) (record : List String) (rest : List (List String))
    (hlat : parse ((record.getD lat_idx "").trim) = none) :
    runRows parse convert datum level lat_idx lon_idx line_number (record :: rest)
      = ((runRows parse convert datum level lat_idx lon_idx (line_number + 1) rest).1,
         latWarning line_number (record.getD lat_idx "")
           :: (runRows parse convert datum level lat_idx lon_idx (line_number + 1) rest).2.1,
         (runRows parse convert datum level lat_idx lon_idx (line_number + 1) rest).2.2) := by
  simp only [runRows]
  rw [hlat]

theorem runRows_cons_lonNone (parse : String → Option ℚ)
    (convert : ℚ × ℚ → Except String (ℚ × ℚ)) (datum : Datum) (level : MeshLevel)
    (lat_idx lon_idx line_number : ℕ) (record : List String) (rest : List (List String))
    {lat : ℚ} (hlat : parse ((record.getD lat_idx "").trim) = some lat)
    (hlon : parse ((record.getD lon_idx "").trim) = none) :
    runRows parse convert datum level lat_idx lon_idx line_number (record :: rest)
      = ((runRows parse convert datum level lat_idx lon_idx (line_number + 1) rest).1,
         lonWarning line_number (record.getD lon_idx "")
           :: (runRows parse convert datum level lat_idx lon_idx (line_number + 1) rest).2.1,
         (runRows parse convert datum level lat_idx lon_idx (line_number + 1) rest).2.2) := by
  simp only [runRows]
  rw [hlat, hlon]

theorem runRows_cons_ok (parse : String → Option ℚ)
    (convert : ℚ × ℚ → Except String (ℚ × ℚ)) (datum : Datum) (level : MeshLevel)
    (lat_idx lon_idx line_number : ℕ) (record : List String) (rest : List (List String))
    {lat lon wgs_lat wgs_lon : ℚ}
    (hlat : parse ((record.getD lat_idx "").trim) = some lat)
    (hlon : parse ((record.getD lon_idx "").trim) = some lon)
    (htr : transform convert datum lat lon = Except.ok (wgs_lat, wgs_lon)) :
    runRows parse convert datum level lat_idx lon_idx line_number (record :: rest)
      = ((record ++ [get_mesh_code wgs_lat wgs_lon level])
           :: (runRows parse convert datum level lat_idx lon_idx (line_number + 1) rest).1,
         (runRows parse convert datum level lat_idx lon_idx (line_number + 1) rest).2.1,
         (runRows parse convert datum level lat_idx lon_idx (line_number + 1) rest).2.2) := by
  simp only [runRows, hlat, hlon, htr]

theorem runRows_cons_err (parse : String → Option ℚ)
    (convert : ℚ × ℚ → Except String (ℚ × ℚ)) (datum : Datum) (level : MeshLevel)
    (lat_idx lon_idx line_number : ℕ) (record : List String) (rest : List (List String))
    {lat lon : ℚ} {e : String}
    (hlat : parse ((record.getD lat_idx "").trim) = some lat)
    (hlon : parse ((record.getD lon_idx "").trim) = some lon)
    (htr : transform convert datum lat lon = Except.error e) :
    runRows parse convert datum level lat_idx lon_idx line_number (record :: rest)
      = ([], [], Except.error e) := by
  simp only [runRows, hlat, hlon, htr]

theorem expectedWarns_cons_latNone (parse : String → Option ℚ)
    (lat_idx lon_idx line_number : ℕ) (record : List String) (rest : List (List String))
    (hlat : parse ((record.getD lat_idx "").trim) = none) :
    expectedWarns parse lat_idx lon_idx line_number (record :: rest)
      = latWarning line_number (record.getD lat_idx "")
          :: expectedWarns parse lat_idx lon_idx (line_number + 1) rest := by
  simp only [expectedWarns]
  rw [hlat]

theorem expectedWarns_cons_lonNone (parse : String → Option ℚ)
    (lat_idx lon_idx line_number : ℕ) (record : List String) (rest : List (List String))
    {lat : ℚ} (hlat : parse ((record.getD lat_idx "").trim) = some lat)
    (hlon : parse ((record.getD lon_idx "").trim) = none) :
    expectedWarns parse lat_idx lon_idx line_number (record :: rest)
      = lonWarning line_number (record.getD lon_idx "")
          :: expectedWarns parse lat_idx lon_idx (line_number + 1) rest := by
  simp only [expectedWarns]
  rw [hlat, hlon]

theorem expectedWarns_cons_ok (parse : String → Option ℚ)
    (lat_idx lon_idx line_number : ℕ) (record : List String) (rest : List (List String))
    {lat lon : ℚ} (hlat : parse ((record.getD lat_idx "").trim) = some lat)
    (hlon : parse ((record.getD lon_idx "").trim) = some lon) :
    expectedWarns parse lat_idx lon_idx line_number (record :: rest)
      = expectedWarns parse lat_idx lon_idx (line_number + 1) rest := by
  simp only [expectedWarns]
  rw [hlat, hlon]

theorem augmentRow_ok (parse : String → Option ℚ)
    (convert : ℚ × ℚ → Except String (ℚ × ℚ)) (datum : Datum) (level : MeshLevel)
    (lat_idx lon_idx : ℕ) (record : List String) {lat lon wgs_lat wgs_lon : ℚ}
    (hlat : parse ((record.getD lat_idx "").trim) = some lat)
    (hlon : parse ((record.getD lon_idx "").trim) = some lon)
    (htr : transform convert datum lat lon = Except.ok (wgs_lat, wgs_lon)) :
    augmentRow parse convert datum level lat_idx lon_idx record
      = record ++ [get_mesh_code wgs_lat wgs_lon level] := by
  simp only [augmentRow, hlat, hlon, htr]

theorem transform_ok_of_hconv {convert : ℚ × ℚ → Except String (ℚ × ℚ)}
    (hconv : ∀ pr, ∃ pr2, convert pr = Except.ok pr2) (datum : Datum) (lat lon : ℚ) :
    ∃ pr2, transform convert datum lat lon = Except.ok pr2 := by
  cases datum with
  | WGS => exact ⟨(lat, lon), rfl⟩
  | JGS =>
      obtain ⟨⟨c1, c2⟩, hc⟩ := hconv (lon, lat)
      exact ⟨(c2, c1), by simp only [transform]; rw [hc]⟩

theorem runRows_eq (parse : String → Option ℚ)
    (convert : ℚ × ℚ → Except String (ℚ × ℚ)) (datum : Datum) (level : MeshLevel)
    (lat_idx lon_idx : ℕ) (hconv : ∀ pr, ∃ pr2, convert pr = Except.ok pr2) :
    ∀ (line_number : ℕ) (rows : List (List String)),
    runRows parse convert datum level lat_idx lon_idx line_number rows
      = ((rows.filter (rowValid parse lat_idx lon_idx)).map
          (augmentRow parse convert datum level lat_idx lon_idx),
         expectedWarns parse lat_idx lon_idx line_number rows,
         Except.ok ()) := by
  intro line_number rows
  induction rows generalizing line_number with
  | nil => rfl
  | cons record rest ih =>
      rcases hlat : parse ((record.getD lat_idx "").trim) with _ | lat
      · have hcond : rowValid parse lat_idx lon_idx record = false := by
          simp only [rowValid, hlat, Option.isSome_none, Bool.false_and]
        rw [runRows_cons_latNone parse convert datum level lat_idx lon_idx line_number
            record rest hlat,
          expectedWarns_cons_latNone parse lat_idx lon_idx line_number record rest hlat,
          List.filter_cons_of_neg (by simp [hcond]), ih (line_number + 1)]
      · rcases hlon : parse ((record.getD lon_idx "").trim) with _ | lon
        · have hcond : rowValid parse lat_idx lon_idx record = false := by
            simp only [rowValid, hlat, hlon, Option.isSome_some, Option.isSome_none,
              Bool.true_and]
          rw [runRows_cons_lonNone parse convert datum level lat_idx lon_idx line_number
              record rest hlat hlon,
            expectedWarns_cons_lonNone parse lat_idx lon_idx line_number record rest hlat hlon,
            List.filter_cons_of_neg (by simp [hcond]), ih (line_number + 1)]
        · have hcond : rowValid parse lat_idx lon_idx record = true := by
            simp only [rowValid, hlat, hlon, Option.isSome_some, Bool.and_self]
          obtain ⟨⟨wlat, wlon⟩, htr⟩ := transform_ok_of_hconv hconv datum lat lon
          rw [runRows_cons_ok parse convert datum level lat_idx lon_idx line_number
              record rest hlat hlon htr,
            expectedWarns_cons_ok parse lat_idx lon_idx line_number record rest hlat hlon,
            List.filter_cons_of_pos hcond, List.map_cons,
            augmentRow_ok parse convert datum level lat_idx lon_idx record hlat hlon htr,
            ih (line_number + 1)]

theorem expectedWarns_length (parse : String → Option ℚ) (lat_idx lon_idx : ℕ) :
    ∀ (line_number : ℕ) (rows : List (List String)),
    (rows.filter (rowValid parse lat_idx lon_idx)).length
      + (expectedWarns parse lat_idx lon_idx line_number rows).length = rows.length := by
  intro line_number rows
  induction rows generalizing line_number with
  | nil => rfl
  | cons record rest ih =>
      have hih := ih (line_number + 1)
      rcases hlat : parse ((record.getD lat_idx "").trim) with _ | lat
      · have hcond : rowValid parse lat_idx lon_idx record = false := by
          simp only [rowValid, hlat, Option.isSome_none, Bool.false_and]
        rw [expectedWarns_cons_latNone parse lat_idx lon_idx line_number record rest hlat,
          List.filter_cons_of_neg (by simp [hcond])]
        simp only [List.length_cons]
        omega
      · rcases hlon : parse ((record.getD lon_idx "").trim) with _ | lon
        · have hcond : rowValid parse lat_idx lon_idx record = false := by
            simp only [rowValid, hlat, hlon, Option.isSome_some, Option.isSome_none,
              Bool.true_and]
          rw [expectedWarns_cons_lonNone parse lat_idx lon_idx line_number record rest
              hlat hlon,
            List.filter_cons_of_neg (by simp [hcond])]
          simp only [List.length_cons]
          omega
        · have hcond : rowValid parse lat_idx lon_idx record = true := by
            simp only [rowValid, hlat, hlon, Option.isSome_some, Bool.and_self]
          rw [expectedWarns_cons_ok parse lat_idx lon_idx line_number record rest hlat hlon,
            List.filter_cons_of_pos hcond]
          simp only [List.length_cons]
          omega

theorem runRows_wgs_convert_indep (parse : String → Option ℚ)
    (convert convert2 : ℚ × ℚ → Except String (ℚ × ℚ)) (level : MeshLevel)
    (lat_idx lon_idx : ℕ) :
    ∀ (line_number : ℕ) (rows : List (List String)),
    runRows parse convert Datum.WGS level lat_idx lon_idx line_number rows
      = runRows parse convert2 Datum.WGS level lat_idx lon_idx line_number rows := by
  intro line_number rows
  induction rows generalizing line_number with
  | nil => rfl
  | cons record rest ih =>
      rcases hlat : parse ((record.getD lat_idx "").trim) with _ | lat
      · rw [runRows_cons_latNone parse convert Datum.WGS level lat_idx lon_idx line_number
            record rest hlat,
          runRows_cons_latNone parse convert2 Datum.WGS level lat_idx lon_idx line_number
            record rest hlat, ih (line_number + 1)]
      · rcases hlon : parse ((record.getD lon_idx "").trim) with _ | lon
        · rw [runRows_cons_lonNone parse convert Datum.WGS level lat_idx lon_idx line_number
              record rest hlat hlon,
            runRows_cons_lonNone parse convert2 Datum.WGS level lat_idx lon_idx line_number
              record rest hlat hlon, ih (line_number + 1)]
        · rw [runRows_cons_ok parse convert Datum.WGS level lat_idx lon_idx line_number
              record rest hlat hlon rfl,
            runRows_cons_ok parse convert2 Datum.WGS level lat_idx lon_idx line_number
              record rest hlat hlon rfl, ih (line_number + 1)]

end Meshify

namespace Meshify

/-- C4: when the external conversion never fails (so no fatal transform
abort interferes — for `datum = WGS` it is never consulted), the loop
completes and outputs exactly the rows whose two coordinate fields parse
after trimming, in their original order, each with exactly one appended
field; `expectedWarns` pairs each skipped record with one warning carrying
that record's source line number, and the number of output rows is the
number of input rows minus the number of warnings. -/
theorem C4_row_skipping (parse : String → Option ℚ)
    (convert : ℚ × ℚ → Except String (ℚ × ℚ)) (datum : Datum) (level : MeshLevel)
    (lat_idx lon_idx line_number : ℕ) (rows : List (List String))
    (hconv : ∀ pr, ∃ pr2, convert pr = Except.ok pr2) :
    runRows parse convert datum level lat_idx lon_idx line_number rows
      = ((rows.filter (rowValid parse lat_idx lon_idx)).map
          (augmentRow parse convert datum level lat_idx lon_idx),
         expectedWarns parse lat_idx lon_idx line_number rows,
         Except.ok ())
    ∧ ((rows.filter (rowValid parse lat_idx lon_idx)).map
          (augmentRow parse convert datum level lat_idx lon_idx)).length
        = rows.length - (expectedWarns parse lat_idx lon_idx line_number rows).length
    ∧ ∀ record : List String, rowValid parse lat_idx lon_idx record = true →
        (augmentRow parse convert datum level lat_idx lon_idx record).length
          = record.length + 1 := by
  refine ⟨runRows_eq parse convert datum level lat_idx lon_idx hconv line_number rows, ?_, ?_⟩
  · have h1 := expectedWarns_length parse lat_idx lon_idx line_number rows
    rw [List.length_map]
    omega
  · intro record hvalid
    rcases hlat : parse ((record.getD lat_idx "").trim) with _ | lat
    · rw [rowValid, hlat] at hvalid
      simp at hvalid
    · rcases hlon : parse ((record.getD lon_idx "").trim) with _ | lon
      · rw [rowValid, hlat, hlon] at hvalid
        simp at hvalid
      · obtain ⟨⟨wlat, wlon⟩, htr⟩ := transform_ok_of_hconv hconv datum lat lon
        rw [augmentRow_ok parse convert datum level lat_idx lon_idx record hlat hlon htr,
          List.length_append]
        rfl

/-- C4 witness: on a single row whose fields do not parse, the loop outputs
no data row and one warning. -/
theorem C4_witness :
    runRows (fun _ => (none : Option ℚ)) (fun pr => Except.ok pr) Datum.WGS
        MeshLevel.Standard 0 1 2 [["abc", "139.0"]]
      = (([["abc", "139.0"]].filter (rowValid (fun _ => (none : Option ℚ)) 0 1)).map
          (augmentRow (fun _ => (none : Option ℚ)) (fun pr => Except.ok pr) Datum.WGS
            MeshLevel.Standard 0 1),
         expectedWarns (fun _ => (none : Option ℚ)) 0 1 2 [["abc", "139.0"]],
         Except.ok ()) :=
  (C4_row_skipping (fun _ => (none : Option ℚ)) (fun pr => Except.ok pr) Datum.WGS
    MeshLevel.Standard 0 1 2 [["abc", "139.0"]] (fun pr => ⟨pr, rfl⟩)).1

/-- C5: with the global datum the row's mesh code is computed directly from
the raw parsed latitude and longitude (the appended field is
`get_mesh_code lat lon level` itself), and the whole loop is independent of
the external converter — no transform touches either value. -/
theorem C5_global_datum_identity (parse : String → Option ℚ)
    (convert convert2 : ℚ × ℚ → Except String (ℚ × ℚ)) (level : MeshLevel)
    (lat_idx lon_idx line_number : ℕ) (record : List String) (rest : List (List String))
    (lat lon : ℚ)
    (hlat : parse ((record.getD lat_idx "").trim) = some lat)
    (hlon : parse ((record.getD lon_idx "").trim) = some lon) :
    runRows parse convert Datum.WGS level lat_idx lon_idx line_number (record :: rest)
      = ((record ++ [get_mesh_code lat lon level])
            :: (runRows parse convert Datum.WGS level lat_idx lon_idx (line_number + 1) rest).1,
         (runRows parse convert Datum.WGS level lat_idx lon_idx (line_number + 1) rest).2.1,
         (runRows parse convert Datum.WGS level lat_idx lon_idx (line_number + 1) rest).2.2)
    ∧ runRows parse convert Datum.WGS level lat_idx lon_idx line_number (record :: rest)
      = runRows parse convert2 Datum.WGS level lat_idx lon_idx line_number (record :: rest) :=
  ⟨runRows_cons_ok parse convert Datum.WGS level lat_idx lon_idx line_number record rest
      hlat hlon rfl,
   runRows_wgs_convert_indep parse convert convert2 level lat_idx lon_idx line_number
      (record :: rest)⟩

/-- C5 witness: one valid row under the global datum gets
`get_mesh_code 35 35` appended, computed from its raw parsed values. -/
theorem C5_witness :
    runRows (fun _ => some (35 : ℚ)) (fun pr => Except.ok pr) Datum.WGS MeshLevel.Standard
        0 1 2 [["a"]]
      = ((["a"] ++ [get_mesh_code 35 35 MeshLevel.Standard])
            :: (runRows (fun _ => some (35 : ℚ)) (fun pr => Except.ok pr) Datum.WGS
                MeshLevel.Standard 0 1 (2 + 1) []).1,
         (runRows (fun _ => some (35 : ℚ)) (fun pr => Except.ok pr) Datum.WGS
            MeshLevel.Standard 0 1 (2 + 1) []).2.1,
         (runRows (fun _ => some (35 : ℚ)) (fun pr => Except.ok pr) Datum.WGS
            MeshLevel.Standard 0 1 (2 + 1) []).2.2) :=
  (C5_global_datum_identity (fun _ => some (35 : ℚ)) (fun pr => Except.ok pr)
    (fun _ => Except.error "unused") MeshLevel.Standard 0 1 2 ["a"] [] 35 35 rfl rfl).1

/-- C6: with the legacy datum the converter is invoked on the pair ordered
`(lon, lat)`; a conversion error makes the whole run abort with that error
(nothing more is written and no further row is processed — not
row-recoverable), and on success the returned pair `(clon, clat)` is
reordered back so that the appended code is `get_mesh_code clat clon`. -/
theorem C6_legacy_transform (parse : String → Option ℚ)
    (convert : ℚ × ℚ → Except String (ℚ × ℚ)) (level : MeshLevel)
    (lat_idx lon_idx line_number : ℕ) (record : List String) (rest : List (List String))
    (lat lon : ℚ)
    (hlat : parse ((record.getD lat_idx "").trim) = some lat)
    (hlon : parse ((record.getD lon_idx "").trim) = some lon) :
    (∀ e : String, convert (lon, lat) = Except.error e →
        runRows parse convert Datum.JGS level lat_idx lon_idx line_number (record :: rest)
          = ([], [], Except.error e))
    ∧ ∀ clon clat : ℚ, convert (lon, lat) = Except.ok (clon, clat) →
        runRows parse convert Datum.JGS level lat_idx lon_idx line_number (record :: rest)
          = ((record ++ [get_mesh_code clat clon level])
                :: (runRows parse convert Datum.JGS level lat_idx lon_idx
                    (line_number + 1) rest).1,
             (runRows parse convert Datum.JGS level lat_idx lon_idx (line_number + 1) rest).2.1,
             (runRows parse convert Datum.JGS level lat_idx lon_idx (line_number + 1) rest).2.2) := by
  constructor
  · intro e he
    exact runRows_cons_err parse convert Datum.JGS level lat_idx lon_idx line_number
      record rest hlat hlon (by simp only [transform, he])
  · intro clon clat hc
    exact runRows_cons_ok parse convert Datum.JGS level lat_idx lon_idx line_number
      record rest hlat hlon (by simp only [transform, hc])

/-- C6 witness: a failing conversion aborts the run with its error. -/
theorem C6_witness :
    runRows (fun _ => some (35 : ℚ))
        (fun _ => (Except.error "range error" : Except String (ℚ × ℚ)))
        Datum.JGS MeshLevel.Standard 0 1 2 [["a"]]
      = ([], [], Except.error "range error") :=
  (C6_legacy_transform (fun _ => some (35 : ℚ))
    (fun _ => (Except.error "range error" : Except String (ℚ × ℚ)))
    MeshLevel.Standard 0 1 2 ["a"] [] 35 35 rfl rfl).1 "range error" rfl

/-- C7: if the configured latitude column name is absent from the header,
or it is present but the longitude column name is absent, the pipeline
writes nothing, emits no warning, processes no data row at all and stops
with the corresponding column-not-found error. -/
theorem C7_column_not_found (parse : String → Option ℚ)
    (proj_init : Except String (ℚ × ℚ → Except String (ℚ × ℚ)))
    (lat_name lon_name : String) (datum : Datum) (level : MeshLevel)
    (headers : List String) (rows : List (List String)) :
    (headers.findIdx? (fun hdr => hdr == lat_name) = none →
        mainRun parse proj_init lat_name lon_name datum level headers rows
          = ([], [], Except.error "緯度列が見つかりません"))
    ∧ ∀ lat_idx : ℕ, headers.findIdx? (fun hdr => hdr == lat_name) = some lat_idx →
        headers.findIdx? (fun hdr => hdr == lon_name) = none →
        mainRun parse proj_init lat_name lon_name datum level headers rows
          = ([], [], Except.error "経度列が見つかりません") := by
  constructor
  · intro h1
    simp only [mainRun, h1]
  · intro lat_idx h1 h2
    simp only [mainRun, h1, h2]

/-- C7 witness: a header without the configured "lat" column yields the
column-not-found error and no processing. -/
theorem C7_witness :
    mainRun (fun _ => (none : Option ℚ)) (Except.ok (fun pr => Except.ok pr)) "lat" "lon"
        Datum.WGS MeshLevel.Standard ["id", "place"] [["1", "2"]]
      = ([], [], Except.error "緯度列が見つかりません") :=
  (C7_column_not_found (fun _ => (none : Option ℚ)) (Except.ok (fun pr => Except.ok pr))
    "lat" "lon" Datum.WGS MeshLevel.Standard ["id", "place"] [["1", "2"]]).1 (by decide)

/-- C8 (amended): the per-skipped-row diagnostic has exactly the code's
format `[警告] <n>行目: <緯度|経度>の値「<raw>」が不正なため、この行をスキップします。`,
carrying the 1-based source line number, the field role (緯度 = latitude,
経度 = longitude) and the raw offending field text; the spec's English
`warning: line <n>: …` template is not what the program emits (see the
counterexample). -/
theorem C8_warning_format (parse : String → Option ℚ)
    (convert : ℚ × ℚ → Except String (ℚ × ℚ)) (datum : Datum) (level : MeshLevel)
    (lat_idx lon_idx line_number : ℕ) (record : List String) (rest : List (List String)) :
    (parse ((record.getD lat_idx "").trim) = none →
        (runRows parse convert datum level lat_idx lon_idx line_number (record :: rest)).2.1
          = latWarning line_number (record.getD lat_idx "")
              :: (runRows parse convert datum level lat_idx lon_idx (line_number + 1) rest).2.1)
    ∧ (∀ lat : ℚ, parse ((record.getD lat_idx "").trim) = some lat →
        parse ((record.getD lon_idx "").trim) = none →
        (runRows parse convert datum level lat_idx lon_idx line_number (record :: rest)).2.1
          = lonWarning line_number (record.getD lon_idx "")
              :: (runRows parse convert datum level lat_idx lon_idx (line_number + 1) rest).2.1)
    ∧ latWarning line_number (record.getD lat_idx "")
        = "[警告] " ++ toString line_number ++ "行目: 緯度の値「" ++ record.getD lat_idx ""
            ++ "」が不正なため、この行をスキップします。"
    ∧ lonWarning line_number (record.getD lon_idx "")
        = "[警告] " ++ toString line_number ++ "行目: 経度の値「" ++ record.getD lon_idx ""
            ++ "」が不正なため、この行をスキップします。" := by
  refine ⟨?_, ?_, rfl, rfl⟩
  · intro hlat
    rw [runRows_cons_latNone parse convert datum level lat_idx lon_idx line_number
      record rest hlat]
  · intro lat hlat hlon
    rw [runRows_cons_lonNone parse convert datum level lat_idx lon_idx line_number
      record rest hlat hlon]

/-- C8 counterexample: for the row `["abc", "139.0"]` at source line 2 the
warning actually emitted is not the spec's
`warning: line 2: invalid latitude value 'abc'; row skipped`. -/
theorem C8_counterexample :
    (runRows (fun _ => (none : Option ℚ)) (fun pr => Except.ok pr) Datum.WGS
        MeshLevel.Standard 0 1 2 [["abc", "139.0"]]).2.1
      ≠ ["warning: line 2: invalid latitude value \x27abc\x27; row skipped"] := by
  decide

/-- C8 witness: a lat-invalid row contributes exactly its formatted warning
at its line number. -/
theorem C8_witness :
    (runRows (fun _ => (none : Option ℚ)) (fun pr => Except.ok pr) Datum.WGS
        MeshLevel.Standard 0 1 2 [["abc", "139.0"]]).2.1
      = latWarning 2 (["abc", "139.0"].getD 0 "")
          :: (runRows (fun _ => (none : Option ℚ)) (fun pr => Except.ok pr) Datum.WGS
              MeshLevel.Standard 0 1 (2 + 1) []).2.1 :=
  (C8_warning_format (fun _ => (none : Option ℚ)) (fun pr => Except.ok pr) Datum.WGS
    MeshLevel.Standard 0 1 2 ["abc", "139.0"] []).1 rfl

/-- C10: whenever both column names resolve, a failed construction of the
external transformer aborts the whole run with its error after the extended
header has been written and before any data row is processed — no data row
in the output and no warning — for every datum (including the global one,
which would never invoke the transformer) and every row list. -/
theorem C10_transformer_init (parse : String → Option ℚ) (e : String)
    (lat_name lon_name : String) (datum : Datum) (level : MeshLevel)
    (headers : List String) (rows : List (List String)) (lat_idx lon_idx : ℕ)
    (h1 : headers.findIdx? (fun hdr => hdr == lat_name) = some lat_idx)
    (h2 : headers.findIdx? (fun hdr => hdr == lon_name) = some lon_idx) :
    mainRun parse (Except.error e) lat_name lon_name datum level headers rows
      = ([headers ++ ["mesh_code"]], [], Except.error e) := by
  simp only [mainRun, h1, h2]

/-- C10 witness: under the global datum with a nonempty row list, a failed
transformer construction still aborts the run right after the header. -/
theorem C10_witness :
    mainRun (fun _ => (none : Option ℚ)) (Except.error "proj init failed") "lat" "lon"
        Datum.WGS MeshLevel.Standard ["lat", "lon"] [["35", "139"]]
      = ([["lat", "lon"] ++ ["mesh_code"]], [], Except.error "proj init failed") :=
  C10_transformer_init (fun _ => (none : Option ℚ)) "proj init failed" "lat" "lon"
    Datum.WGS MeshLevel.Standard ["lat", "lon"] [["35", "139"]] 0 1 (by decide) (by decide)

end Meshify
